import Mathlib

/-!
Shallow embedding of the adapter core of `src/vscode-debugger/ravidebug.c`
(the `ravi` VSCode debug adapter), together with theorems settling the
specification claims about it.

Modelling conventions:
* The C global `debugger_state` (an `int` enum) is a `Nat`, with the same
  numeric values as the C `enum` at the top of the file.  The enum constant
  `DEBUGGER_INITIALIZED` of the C source is rendered here as
  `DEBUGGER_INIT_DONE` (a mechanical renaming).
* The interpreter (`lua_State`) is represented by the narrow introspection
  surface the adapter uses: a call stack of frames, each carrying the source
  string, current line, optional function name, upvalue count and the list of
  local-variable names (`lua_getstack`, `lua_getinfo`, `lua_getlocal`).
* `MAX_STACK_FRAMES` and `MAX_VARIABLES` are compile-time constants from the
  repository header `protocol.h`, which is not part of the given sources;
  every definition takes them as explicit parameters and every theorem holds
  for all of their values.
* Each `fprintf(out, buf)` of a serialized message (the serializers live in
  the missing `protocol.c`) is modelled as appending one abstract `Item`
  (an event or a response) to the emission trace; `lua_pcall` of the loaded
  program is recorded in the trace as `Item.runMarker` carrying the value of
  `debugger_state` at the moment the program is run.
-/

namespace RaviDebug

/-- States of the C enum: BIRTH = 1 (`ravidebug.c` lines 18-25). -/
def DEBUGGER_BIRTH : Nat := 1

/-- `DEBUGGER_INITIALIZED` in the C source. -/
def DEBUGGER_INIT_DONE : Nat := 2

def DEBUGGER_PROGRAM_LAUNCHED : Nat := 3

def DEBUGGER_PROGRAM_RUNNING : Nat := 4

def DEBUGGER_PROGRAM_STOPPED : Nat := 5

def DEBUGGER_PROGRAM_TERMINATED : Nat := 6

/-- One activation record of the interpreter stack, as seen through
`lua_getstack` / `lua_getinfo "Slnu"` / `lua_getlocal`:
source string, current line, function name (`none` = anonymous),
upvalue count (`nups`), and the 1-based sequence of local names. -/
structure LuaFrame where
  source : String
  currentline : Int
  name : Option String
  nups : Nat
  locals : List String
deriving DecidableEq

/-- The paused interpreter: its call stack, depth 0 topmost. -/
structure LuaState where
  stack : List LuaFrame
deriving DecidableEq

/-- `lua_getstack(L, depth, &entry)`: succeeds exactly for
`0 ≤ depth < stack depth` (Lua rejects negative levels). -/
def lua_getstack (L : LuaState) (depth : Int) : Option LuaFrame :=
  if 0 ≤ depth then L.stack[depth.toNat]? else none

/-- `lua_getlocal(L, &entry, n)`: name of the `n`-th local (1-based),
`none` when absent. -/
def lua_getlocal (f : LuaFrame) (n : Nat) : Option String :=
  f.locals[n - 1]?

/-- DAP requests the adapter recognises (`vscode_parse_message` dispatch
values).  `initCmd` renders `VSCODE_INITIALIZE_REQUEST`.  Argument fields are
the ones the handlers consume: `launch.program`, `stackTrace.levels`,
`scopes.frameId`, `variables.variablesReference`. -/
inductive Command where
  | initCmd : Command
  | launch : String → Command
  | configurationDone : Command
  | threads : Command
  | stackTrace : Int → Command
  | scopes : Int → Command
  | variables : Int → Command
  | setExceptionBreakpoints : Command
  | stepIn : Command
  | stepOut : Command
  | next : Command
  | disconnect : Command
  | unknownCmd : String → Command
deriving DecidableEq

/-- A stack frame as placed into a StackTraceResponse. -/
structure StackFrame where
  id : Nat
  name : String
  sourceName : String
  sourcePath : String
  line : Int
deriving DecidableEq

/-- A scope entry of a ScopesResponse. -/
structure Scope where
  name : String
  variablesReference : Int
  expensive : Bool
deriving DecidableEq

/-- A thread entry of a ThreadResponse. -/
structure ThreadInfo where
  id : Nat
  name : String
deriving DecidableEq

/-- Command-specific response bodies.  `initBody` renders the
InitializeResponse body; `variablesBody` records the successive names the
locals loop retrieves via `lua_getlocal`, in order (the C loop copies them
into `variables[x]` where `x` is initialised to 0 and never incremented;
serialization lives in the missing `protocol.c` and is not modelled). -/
inductive ResponseBody where
  | empty : ResponseBody
  | initBody : Bool → ResponseBody
  | stackTraceBody : List StackFrame → Nat → ResponseBody
  | scopesBody : List Scope → ResponseBody
  | variablesBody : List String → ResponseBody
  | threadsBody : List ThreadInfo → ResponseBody
deriving DecidableEq

/-- A response message: echoed command, success flag, optional error
message, body. -/
structure Response where
  command : String
  success : Bool
  message : Option String
  body : ResponseBody
deriving DecidableEq

/-- Events the adapter emits.  `initEv` renders the DAP `initialized`
event. -/
inductive Event where
  | initEv : Event
  | stoppedEvent : String → Event
  | threadEvent : Bool → Event
  | terminated : Event
  | output : String → Event
deriving DecidableEq

/-- One emission of the adapter, or the marker recording that the loaded
program was run (`lua_pcall`) while `debugger_state` held the given value. -/
inductive Item where
  | event : Event → Item
  | response : Response → Item
  | runMarker : Nat → Item
deriving DecidableEq

/-- `vscode_make_error_response` followed by serialization and emission. -/
def errorResponse (cmd msg : String) : Response :=
  { command := cmd, success := false, message := some msg, body := ResponseBody.empty }

/-- `vscode_make_success_response` followed by serialization and emission. -/
def successResponse (cmd : String) (body : ResponseBody) : Response :=
  { command := cmd, success := true, message := none, body := body }

/-- Scope kinds of the variables-reference encoding. -/
inductive ScopeKind where
  | locals : ScopeKind
  | upvalues : ScopeKind
  | globals : ScopeKind
deriving DecidableEq

/-- The `kind_base` of the handle scheme, as hard-coded in
`handle_scopes_request` (lines 197, 201, 205). -/
def kindBase : ScopeKind → Int
  | ScopeKind.locals => 1000000
  | ScopeKind.upvalues => 2000000
  | ScopeKind.globals => 3000000

/-- The `type` character `handle_variables_request` decodes to
(lines 228, 232, 236). -/
def kindChar : ScopeKind → Char
  | ScopeKind.locals => 'l'
  | ScopeKind.upvalues => 'u'
  | ScopeKind.globals => 'g'

/-- The handle encoding `kind_base + frame_depth` used by
`handle_scopes_request`. -/
def encodeHandle (k : ScopeKind) (depth : Int) : Int :=
  kindBase k + depth

/-- The decode cascade of `handle_variables_request` (lines 227-238):
`varRef ≥ 3000000` is Globals, else `≥ 2000000` is Upvalues, else Locals. -/
def decodeVarRef (varRef : Int) : Char × Int :=
  if varRef ≥ 3000000 then ('g', varRef - 3000000)
  else if varRef ≥ 2000000 then ('u', varRef - 2000000)
  else ('l', varRef - 1000000)

/-- Source-string postprocessing of `handle_stack_trace_request`
(lines 155-166): strip a leading `@`; `source.name` is the basename after
the last `/` (or the whole string); `source.path` is the stripped string. -/
def sourceBaseName (src : String) : String :=
  (src.splitOn "/").getLastD src

/-- The StackFrame entry built for one stack depth
(`handle_stack_trace_request` lines 153-172): `id = depth`,
`name = entry.name` or `"?"` when anonymous. -/
def mkStackFrame (depth : Nat) (f : LuaFrame) : StackFrame :=
  { id := depth
    name := f.name.getD "?"
    sourceName := sourceBaseName (if f.source.startsWith "@" then f.source.drop 1 else f.source)
    sourcePath := if f.source.startsWith "@" then f.source.drop 1 else f.source
    line := f.currentline }

/-- The frame-walking loop of `handle_stack_trace_request` (line 151):
`while (lua_getstack(L, depth, &entry) && depth < levels && depth < MAX_STACK_FRAMES)`.
`lua_getstack` at the successive depths succeeds exactly while frames remain,
so the walk recurses along the stack list carrying the depth counter. -/
def stackWalk (maxStackFrames : Nat) (levels : Int) : Nat → List LuaFrame → List StackFrame
  | _, [] => []
  | depth, f :: rest =>
    if (depth : Int) < levels ∧ depth < maxStackFrames then
      mkStackFrame depth f :: stackWalk maxStackFrames levels (depth + 1) rest
    else []

/-- `handle_stack_trace_request` (lines 145-179): success response whose
body carries the walked frames and `totalFrames` = number emitted. -/
def handle_stack_trace_request (maxStackFrames : Nat) (L : LuaState) (levels : Int) : List Item :=
  [Item.response (successResponse "stackTrace"
    (ResponseBody.stackTraceBody (stackWalk maxStackFrames levels 0 L.stack)
      (stackWalk maxStackFrames levels 0 L.stack).length))]

/-- `handle_scopes_request` (lines 184-214): for an existing frame emit
Locals (always), `"Up Values"` only when `entry.nups > 0`, Globals (always,
expensive); each with `variablesReference = kind_base + depth`.  For an
absent frame emit an error response. -/
def handle_scopes_request (L : LuaState) (frameId : Int) : List Item :=
  match lua_getstack L frameId with
  | some f =>
      [Item.response (successResponse "scopes" (ResponseBody.scopesBody
        ([{ name := "Locals", variablesReference := 1000000 + frameId, expensive := false }]
         ++ (if f.nups > 0 then
              [{ name := "Up Values", variablesReference := 2000000 + frameId, expensive := false }]
             else [])
         ++ [{ name := "Globals", variablesReference := 3000000 + frameId, expensive := true }])))]
  | none => [Item.response (errorResponse "scopes" "Error retrieving stack frame")]

/-- The locals loop of `handle_variables_request` (lines 240-250):
`for (n = 1; n < MAX_VARIABLES; n++)`, stopping at the first absent
`lua_getlocal` name; returns the retrieved names in order. -/
def localsLoop (f : LuaFrame) (maxVariables : Nat) (n : Nat) : List String :=
  if _h : n < maxVariables then
    match lua_getlocal f n with
    | some name => name :: localsLoop f maxVariables (n + 1)
    | none => []
  else []
termination_by maxVariables - n

/-- `handle_variables_request` (lines 219-258): decode the handle; only a
Locals handle whose frame exists yields a success response (carrying the
names the loop retrieved); every other handle yields the error response
`"Error retrieving variables"`. -/
def handle_variables_request (maxVariables : Nat) (L : LuaState) (varRef : Int) : List Item :=
  if (decodeVarRef varRef).1 = 'l' then
    match lua_getstack L (decodeVarRef varRef).2 with
    | some f =>
        [Item.response (successResponse "variables"
          (ResponseBody.variablesBody (localsLoop f maxVariables 1)))]
    | none => [Item.response (errorResponse "variables" "Error retrieving variables")]
  else [Item.response (errorResponse "variables" "Error retrieving variables")]

/-- `handle_thread_request` (lines 131-140): fixed single-thread response. -/
def handle_thread_request : List Item :=
  [Item.response (successResponse "threads"
    (ResponseBody.threadsBody [{ id := 1, name := "Lua Thread" }]))]

/-- `handle_initialize_request` (lines 102-126): in a state at or past
`DEBUGGER_INITIALIZED` reject with `"already initialized"` and leave the
state alone; otherwise emit the `initialized` event, the success response
advertising `supportsConfigurationDoneRequest`, the informational output
event, and move to `DEBUGGER_INITIALIZED`. -/
def handle_init_request (st : Nat) : Nat × List Item :=
  if st ≥ DEBUGGER_INIT_DONE then
    (st, [Item.response (errorResponse "initialize" "already initialized")])
  else
    (DEBUGGER_INIT_DONE,
     [Item.event Event.initEv,
      Item.response { command := "initialize", success := true, message := none,
                      body := ResponseBody.initBody true },
      Item.event (Event.output "Debugger initialized")])

/-- External collaborators of one session: the compile-time caps from
`protocol.h`, the paused interpreter, the result of `luaL_loadfile` for a
program path (`none` = `LUA_OK`, `some msg` = the error string on the Lua
stack), and the result of `lua_pcall` on the loaded program. -/
structure Env where
  maxStackFrames : Nat
  maxVariables : Nat
  luaState : LuaState
  loadResult : String → Option String
  runResult : Option String

/-- `handle_launch_request` (lines 260-291): reject outside
`DEBUGGER_INITIALIZED`; on load failure emit the diagnostic output event and
the `"Launch failed"` error response, leaving the state alone; on success
emit the success response, set the state to running, run the program
(`runMarker`), emit the pcall diagnostics if it failed, then the terminated
event, ending in `DEBUGGER_PROGRAM_TERMINATED`. -/
def handle_launch_request (env : Env) (st : Nat) (program : String) : Nat × List Item :=
  if st ≠ DEBUGGER_INIT_DONE then
    (st, [Item.response (errorResponse "launch" "not initialized or unexpected state")])
  else
    match env.loadResult program with
    | some err =>
        (st, [Item.event (Event.output ("Failed to launch " ++ program ++ " due to error: " ++ err)),
              Item.response (errorResponse "launch" "Launch failed")])
    | none =>
        (DEBUGGER_PROGRAM_TERMINATED,
         [Item.response (successResponse "launch" ResponseBody.empty),
          Item.runMarker DEBUGGER_PROGRAM_RUNNING]
         ++ (match env.runResult with
             | some err => [Item.event (Event.output "Program terminated with error"),
                            Item.event (Event.output err)]
             | none => [])
         ++ [Item.event Event.terminated])

/-- What the request loop does after one dispatched command:
keep reading, leave the loop (`get_command = false`), or `exit(0)`. -/
inductive LoopCtl where
  | cont : LoopCtl
  | stopRead : LoopCtl
  | exitProc : LoopCtl
deriving DecidableEq

/-- Result of dispatching one command: the new `debugger_state`, the items
emitted, and the loop control. -/
structure DispatchOut where
  state : Nat
  items : List Item
  ctl : LoopCtl
deriving DecidableEq

/-- The `switch (command)` of the request loop (`debugger`, lines 355-414).
Only `initialize` and `launch` consult `debugger_state`; `disconnect`
responds and exits the process; `stepIn`/`stepOut`/`next` respond and clear
`get_command`; unknown commands get `"<cmd> not yet implemented"`. -/
def dispatchCommand (env : Env) (st : Nat) (cmd : Command) : DispatchOut :=
  match cmd with
  | Command.initCmd =>
      { state := (handle_init_request st).1, items := (handle_init_request st).2,
        ctl := LoopCtl.cont }
  | Command.launch p =>
      { state := (handle_launch_request env st p).1, items := (handle_launch_request env st p).2,
        ctl := LoopCtl.cont }
  | Command.stackTrace levels =>
      { state := st, items := handle_stack_trace_request env.maxStackFrames env.luaState levels,
        ctl := LoopCtl.cont }
  | Command.scopes frameId =>
      { state := st, items := handle_scopes_request env.luaState frameId, ctl := LoopCtl.cont }
  | Command.variables varRef =>
      { state := st, items := handle_variables_request env.maxVariables env.luaState varRef,
        ctl := LoopCtl.cont }
  | Command.disconnect =>
      { state := st, items := [Item.response (successResponse "disconnect" ResponseBody.empty)],
        ctl := LoopCtl.exitProc }
  | Command.setExceptionBreakpoints =>
      { state := st,
        items := [Item.response (successResponse "setExceptionBreakpoints" ResponseBody.empty)],
        ctl := LoopCtl.cont }
  | Command.configurationDone =>
      { state := st,
        items := [Item.response (successResponse "configurationDone" ResponseBody.empty)],
        ctl := LoopCtl.cont }
  | Command.threads =>
      { state := st, items := handle_thread_request, ctl := LoopCtl.cont }
  | Command.stepIn =>
      { state := st, items := [Item.response (successResponse "stepIn" ResponseBody.empty)],
        ctl := LoopCtl.stopRead }
  | Command.stepOut =>
      { state := st, items := [Item.response (successResponse "stepOut" ResponseBody.empty)],
        ctl := LoopCtl.stopRead }
  | Command.next =>
      { state := st, items := [Item.response (successResponse "next" ResponseBody.empty)],
        ctl := LoopCtl.stopRead }
  | Command.unknownCmd c =>
      { state := st, items := [Item.response (errorResponse c (c ++ " not yet implemented"))],
        ctl := LoopCtl.cont }

/-- Result of the request loop: final state, emitted items, unread remainder
of the request stream, and whether `exit` was reached. -/
structure LoopOut where
  state : Nat
  items : List Item
  rest : List Command
  exited : Bool
deriving DecidableEq

/-- The request loop of `debugger` (lines 328-420): read framed requests one
at a time and dispatch until `get_command` is cleared, `exit` is reached, or
the stream ends. -/
def loopRun (env : Env) : Nat → List Command → LoopOut
  | st, [] => { state := st, items := [], rest := [], exited := false }
  | st, c :: cs =>
    match (dispatchCommand env st c).ctl with
    | LoopCtl.cont =>
        { state := (loopRun env (dispatchCommand env st c).state cs).state
          items := (dispatchCommand env st c).items
                   ++ (loopRun env (dispatchCommand env st c).state cs).items
          rest := (loopRun env (dispatchCommand env st c).state cs).rest
          exited := (loopRun env (dispatchCommand env st c).state cs).exited }
    | LoopCtl.stopRead =>
        { state := (dispatchCommand env st c).state, items := (dispatchCommand env st c).items,
          rest := cs, exited := false }
    | LoopCtl.exitProc =>
        { state := (dispatchCommand env st c).state, items := (dispatchCommand env st c).items,
          rest := cs, exited := true }

/-- Result of the stop prelude of `debugger` (lines 304-318). -/
structure PreludeOut where
  state : Nat
  threadEventSent : Bool
  events : List Item
deriving DecidableEq

/-- Lines 304-318 of `debugger`: when entered in
`DEBUGGER_PROGRAM_RUNNING`, emit the thread-started plus `"entry"` stopped
events on the first invocation (setting `thread_event_sent`), only a
`"step"` stopped event afterwards, and move to `DEBUGGER_PROGRAM_STOPPED`;
in any other state emit nothing. -/
def debuggerPrelude (st : Nat) (tes : Bool) : PreludeOut :=
  if st = DEBUGGER_PROGRAM_RUNNING then
    if !tes then
      { state := DEBUGGER_PROGRAM_STOPPED, threadEventSent := true,
        events := [Item.event (Event.threadEvent true),
                   Item.event (Event.stoppedEvent "entry")] }
    else
      { state := DEBUGGER_PROGRAM_STOPPED, threadEventSent := true,
        events := [Item.event (Event.stoppedEvent "step")] }
  else { state := st, threadEventSent := tes, events := [] }

/-- Result of one `debugger` entry. -/
structure StepOut where
  state : Nat
  threadEventSent : Bool
  items : List Item
  rest : List Command
  exited : Bool
deriving DecidableEq

/-- One entry into `debugger` (lines 297-422): return silently when already
`DEBUGGER_PROGRAM_TERMINATED`; otherwise run the stop prelude, then the
request loop, and finally set the state back to `DEBUGGER_PROGRAM_RUNNING`
(line 421) unless the process exited. -/
def debuggerStep (env : Env) (st : Nat) (tes : Bool) (input : List Command) : StepOut :=
  if st = DEBUGGER_PROGRAM_TERMINATED then
    { state := st, threadEventSent := tes, items := [], rest := input, exited := false }
  else
    { state := if (loopRun env (debuggerPrelude st tes).state input).exited
                 then (loopRun env (debuggerPrelude st tes).state input).state
                 else DEBUGGER_PROGRAM_RUNNING
      threadEventSent := (debuggerPrelude st tes).threadEventSent
      items := (debuggerPrelude st tes).events
               ++ (loopRun env (debuggerPrelude st tes).state input).items
      rest := (loopRun env (debuggerPrelude st tes).state input).rest
      exited := (loopRun env (debuggerPrelude st tes).state input).exited }

/-- The trace of a sequence of `n` hook-driven `debugger` entries, threading
`debugger_state`, `thread_event_sent` and the unread request stream; the
session ends early if a `disconnect` exits the process. -/
def hookSession (env : Env) : Nat → Nat → Bool → List Command → List Item
  | 0, _, _, _ => []
  | n + 1, st, tes, input =>
    (debuggerStep env st tes input).items
    ++ (if (debuggerStep env st tes input).exited then []
        else hookSession env n (debuggerStep env st tes input).state
               (debuggerStep env st tes input).threadEventSent
               (debuggerStep env st tes input).rest)

/-- The events of the Lua debug hook (`lua_Debug.event`). -/
inductive HookEvent where
  | call : HookEvent
  | line : HookEvent
  | ret : HookEvent
  | tailcall : HookEvent
  | count : HookEvent
deriving DecidableEq

/-- The mask `LUA_MASKCALL | LUA_MASKLINE | LUA_MASKRET` the hook is
installed with (`main`, line 455). -/
def installedHookMask : List HookEvent :=
  [HookEvent.call, HookEvent.line, HookEvent.ret]

/-- `ravi_debughook` (lines 428-433): enter `debugger` only on a line
event; on any other hook event do nothing. -/
def ravi_debughook (env : Env) (ev : HookEvent) (st : Nat) (tes : Bool)
    (input : List Command) : StepOut :=
  if ev = HookEvent.line then debuggerStep env st tes input
  else { state := st, threadEventSent := tes, items := [], rest := input, exited := false }

/-- Items that only the stop prelude can emit. -/
def isStopOrThreadEv : Item → Bool
  | Item.event (Event.threadEvent _) => true
  | Item.event (Event.stoppedEvent _) => true
  | Item.event Event.initEv => false
  | Item.event Event.terminated => false
  | Item.event (Event.output _) => false
  | Item.response _ => false
  | Item.runMarker _ => false

/-- A one-frame interpreter stack for concrete evaluations: main chunk of
`/a/b.lua`, anonymous, one upvalue (`_ENV`), locals `a b c d e`. -/
def frame0 : LuaFrame :=
  { source := "@/a/b.lua", currentline := 1, name := none, nups := 1,
    locals := ["a", "b", "c", "d", "e"] }

/-- A concrete paused interpreter with `frame0` on the stack. -/
def lua0 : LuaState := { stack := [frame0] }

/-- A concrete environment whose `luaL_loadfile` always fails. -/
def env0 : Env :=
  { maxStackFrames := 20, maxVariables := 100, luaState := lua0,
    loadResult := fun _ => some "cannot open nope.lua", runResult := none }

/-- A concrete environment whose load succeeds and whose run fails. -/
def env1 : Env :=
  { maxStackFrames := 20, maxVariables := 100, luaState := lua0,
    loadResult := fun _ => none, runResult := some "attempt to call a nil value" }

/-! ## Helper lemmas -/

theorem lua_getstack_nonneg {L : LuaState} {d : Int} {f : LuaFrame}
    (h : lua_getstack L d = some f) : 0 ≤ d := by
  by_contra hneg
  unfold lua_getstack at h
  rw [if_neg hneg] at h
  exact Option.noConfusion h

theorem localsLoop_eq_take (f : LuaFrame) (mv : Nat) :
    ∀ (j k : Nat), mv - (k + 1) = j → localsLoop f mv (k + 1) = (f.locals.drop k).take j := by
  intro j
  induction j with
  | zero =>
    intro k hk
    unfold localsLoop
    rw [dif_neg (by omega)]
    simp
  | succ j ih =>
    intro k hk
    have hlt : k + 1 < mv := by omega
    unfold localsLoop
    rw [dif_pos hlt]
    cases hx : lua_getlocal f (k + 1) with
    | some nm =>
      have hx' : f.locals[k]? = some nm := hx
      have hklen : k < f.locals.length := by
        by_contra hh
        rw [List.getElem?_eq_none (by omega)] at hx'
        exact Option.noConfusion hx'
      have hdrop : f.locals.drop k = f.locals[k] :: f.locals.drop (k + 1) :=
        List.drop_eq_getElem_cons hklen
      have hnm : f.locals[k] = nm := by
        have := List.getElem?_eq_getElem hklen
        rw [hx'] at this
        exact (Option.some.injEq _ _).mp this.symm
      rw [ih (k + 1) (by omega), hdrop, hnm]
      simp
    | none =>
      have hx' : f.locals[k]? = none := hx
      have hlen : f.locals.length ≤ k := by
        by_contra hh
        rw [List.getElem?_eq_getElem (by omega)] at hx'
        exact Option.noConfusion hx'
      rw [List.drop_eq_nil_of_le hlen]
      simp

theorem localsLoop_one (f : LuaFrame) (mv : Nat) :
    localsLoop f mv 1 = f.locals.take (mv - 1) := by
  have h := localsLoop_eq_take f mv (mv - 1) 0 rfl
  simpa using h

theorem stackWalk_length_le (maxSF : Nat) (levels : Int) (hl : 0 ≤ levels) :
    ∀ (fs : List LuaFrame) (d : Nat),
      (stackWalk maxSF levels d fs).length ≤ fs.length
      ∧ (stackWalk maxSF levels d fs).length ≤ maxSF - d
      ∧ (stackWalk maxSF levels d fs).length ≤ levels.toNat - d := by
  intro fs
  induction fs with
  | nil => intro d; simp [stackWalk]
  | cons f rest ih =>
    intro d
    by_cases hc : (d : Int) < levels ∧ d < maxSF
    · obtain ⟨ha, hb, hc'⟩ := ih (d + 1)
      simp only [stackWalk, if_pos hc, List.length_cons]
      obtain ⟨hc1, hc2⟩ := hc
      refine ⟨by omega, by omega, by omega⟩
    · simp only [stackWalk, if_neg hc, List.length_nil]
      exact ⟨by omega, by omega, by omega⟩

theorem stackWalk_get (maxSF : Nat) (levels : Int) :
    ∀ (fs : List LuaFrame) (d i : Nat) (fr : StackFrame),
      (stackWalk maxSF levels d fs)[i]? = some fr →
      ∃ f, fs[i]? = some f ∧ fr = mkStackFrame (d + i) f := by
  intro fs
  induction fs with
  | nil => intro d i fr h; simp [stackWalk] at h
  | cons f rest ih =>
    intro d i fr h
    by_cases hc : (d : Int) < levels ∧ d < maxSF
    · rw [stackWalk, if_pos hc] at h
      cases i with
      | zero =>
        simp only [List.getElem?_cons_zero, Option.some.injEq] at h
        exact ⟨f, by simp, by rw [← h]; norm_num⟩
      | succ i =>
        simp only [List.getElem?_cons_succ] at h
        obtain ⟨f', hf', hfr⟩ := ih (d + 1) i fr h
        refine ⟨f', by simpa using hf', ?_⟩
        rw [hfr]
        congr 1
        omega
    · rw [stackWalk, if_neg hc] at h
      simp at h

theorem dispatch_no_stop_items (env : Env) (st : Nat) (cmd : Command) :
    ∀ it ∈ (dispatchCommand env st cmd).items, isStopOrThreadEv it = false := by
  cases cmd
  all_goals
    simp only [dispatchCommand, handle_init_request, handle_launch_request,
      handle_thread_request, handle_stack_trace_request, handle_scopes_request,
      handle_variables_request]
  all_goals
    repeat' split
  all_goals
    simp [isStopOrThreadEv]

theorem loopRun_no_stop_items (env : Env) :
    ∀ (input : List Command) (st : Nat),
      ∀ it ∈ (loopRun env st input).items, isStopOrThreadEv it = false := by
  intro input
  induction input with
  | nil => intro st it h; simp [loopRun] at h
  | cons c cs ih =>
    intro st it h
    rw [loopRun] at h
    cases hctl : (dispatchCommand env st c).ctl
    all_goals rw [hctl] at h
    · simp only [List.mem_append] at h
      rcases h with h1 | h2
      · exact dispatch_no_stop_items env st c it h1
      · exact ih (dispatchCommand env st c).state it h2
    · exact dispatch_no_stop_items env st c it h
    · exact dispatch_no_stop_items env st c it h

theorem debuggerPrelude_tes_true (st : Nat) :
    (debuggerPrelude st true).threadEventSent = true := by
  unfold debuggerPrelude
  split <;> rfl

theorem debuggerStep_tes_true (env : Env) (st : Nat) (input : List Command) :
    (debuggerStep env st true input).threadEventSent = true := by
  unfold debuggerStep
  split
  · rfl
  · exact debuggerPrelude_tes_true st

theorem hookSession_step_only (env : Env) :
    ∀ (n st : Nat) (input : List Command),
      ∀ it ∈ hookSession env n st true input,
        isStopOrThreadEv it = true → it = Item.event (Event.stoppedEvent "step") := by
  intro n
  induction n with
  | zero => intro st input it h; simp [hookSession] at h
  | succ n ih =>
    intro st input it h htrue
    rw [hookSession] at h
    rcases List.mem_append.mp h with h1 | h2
    · by_cases hst : st = DEBUGGER_PROGRAM_TERMINATED
      · rw [debuggerStep, if_pos hst] at h1
        simp at h1
      · rw [debuggerStep, if_neg hst] at h1
        dsimp only at h1
        rcases List.mem_append.mp h1 with hp | hlp
        · by_cases hrun : st = DEBUGGER_PROGRAM_RUNNING
          · rw [debuggerPrelude, if_pos hrun] at hp
            simp only [Bool.not_true, Bool.false_eq_true, if_false, List.mem_singleton] at hp
            exact hp
          · rw [debuggerPrelude, if_neg hrun] at hp
            simp at hp
        · have hfalse := loopRun_no_stop_items env input (debuggerPrelude st true).state it hlp
          rw [htrue] at hfalse
          exact Bool.noConfusion hfalse
    · by_cases hex : (debuggerStep env st true input).exited
      · rw [if_pos hex] at h2
        simp at h2
      · rw [if_neg hex] at h2
        rw [debuggerStep_tes_true env st input] at h2
        exact ih (debuggerStep env st true input).state
          (debuggerStep env st true input).rest it h2 htrue

/-! ## Claim theorems -/

/-- C1 counterexample: the claim demands `success = false` for every
(state, command) pair outside the legality table, in particular for any
non-initialize command in Birth; but dispatching `threads` in
`DEBUGGER_BIRTH` emits a response with `success := true` (the handler never
consults the state). -/
theorem c1_counterexample :
    dispatchCommand env0 DEBUGGER_BIRTH Command.threads =
      { state := DEBUGGER_BIRTH,
        items := [Item.response { command := "threads", success := true, message := none,
                                  body := ResponseBody.threadsBody [{ id := 1, name := "Lua Thread" }] }],
        ctl := LoopCtl.cont } := rfl

/-- C1 (amended): only `initialize` and `launch` enforce state legality: a
launch outside `DEBUGGER_INITIALIZED` errors with
`"not initialized or unexpected state"` without a transition; an initialize
at or past `DEBUGGER_INITIALIZED` errors with `"already initialized"`
without a transition; a `debugger` entry in `DEBUGGER_PROGRAM_TERMINATED`
returns silently without reading requests; other commands (e.g. `threads`)
are dispatched without any state check, in every state. -/
theorem c1_state_guard :
    (∀ (env : Env) (st : Nat) (p : String), st ≠ DEBUGGER_INIT_DONE →
       dispatchCommand env st (Command.launch p) =
         { state := st,
           items := [Item.response (errorResponse "launch" "not initialized or unexpected state")],
           ctl := LoopCtl.cont })
    ∧ (∀ (env : Env) (st : Nat), DEBUGGER_INIT_DONE ≤ st →
        dispatchCommand env st Command.initCmd =
          { state := st,
            items := [Item.response (errorResponse "initialize" "already initialized")],
            ctl := LoopCtl.cont })
    ∧ (∀ (env : Env) (tes : Bool) (input : List Command),
        debuggerStep env DEBUGGER_PROGRAM_TERMINATED tes input =
          { state := DEBUGGER_PROGRAM_TERMINATED, threadEventSent := tes, items := [],
            rest := input, exited := false })
    ∧ (∀ (env : Env) (st : Nat),
        dispatchCommand env st Command.threads =
          { state := st,
            items := [Item.response (successResponse "threads"
                       (ResponseBody.threadsBody [{ id := 1, name := "Lua Thread" }]))],
            ctl := LoopCtl.cont }) := by
  refine ⟨?_, ?_, ?_, ?_⟩
  · intro env st p h
    simp only [dispatchCommand, handle_launch_request, if_pos h]
  · intro env st h
    simp only [dispatchCommand, handle_init_request, if_pos h]
  · intro env tes input
    rw [debuggerStep, if_pos rfl]
  · intro env st
    rfl

/-- C1 witness: the launch guard applied at the concrete state
`DEBUGGER_PROGRAM_STOPPED`. -/
theorem c1_state_guard_witness :
    DEBUGGER_PROGRAM_STOPPED ≠ DEBUGGER_INIT_DONE ∧
    dispatchCommand env0 DEBUGGER_PROGRAM_STOPPED (Command.launch "a.lua") =
      { state := DEBUGGER_PROGRAM_STOPPED,
        items := [Item.response (errorResponse "launch" "not initialized or unexpected state")],
        ctl := LoopCtl.cont } :=
  ⟨by decide, c1_state_guard.1 env0 DEBUGGER_PROGRAM_STOPPED "a.lua" (by decide)⟩

/-- C2 counterexample: the claim demands a success response with an empty
variable list for a Globals handle; on the emitted Globals handle 3000000
(frame 0 exists on `lua0`) the handler emits an error response instead. -/
theorem c2_counterexample :
    handle_variables_request 100 lua0 3000000 =
      [Item.response { command := "variables", success := false,
                       message := some "Error retrieving variables", body := ResponseBody.empty }]
    ∧ handle_variables_request 100 lua0 3000000 ≠
      [Item.response { command := "variables", success := true, message := none,
                       body := ResponseBody.variablesBody [] }] :=
  ⟨rfl, by decide⟩

/-- C2 (amended): a variables request whose handle decodes to kind Upvalues
or Globals yields the error response `"Error retrieving variables"` (not a
success with an empty list); for kind Locals with an existing frame the
handler iterates `lua_getlocal` for `n = 1 … MAX_VARIABLES − 1`, stopping at
the first absent name (hence collecting `locals.take (MAX_VARIABLES − 1)`),
in a success response; for kind Locals with an absent frame it emits the
error response. -/
theorem c2_variables_contract :
    (∀ (mv : Nat) (L : LuaState) (varRef : Int),
       (decodeVarRef varRef).1 = 'u' ∨ (decodeVarRef varRef).1 = 'g' →
       handle_variables_request mv L varRef =
         [Item.response (errorResponse "variables" "Error retrieving variables")])
    ∧ (∀ (mv : Nat) (L : LuaState) (varRef : Int) (f : LuaFrame),
        (decodeVarRef varRef).1 = 'l' → lua_getstack L (decodeVarRef varRef).2 = some f →
        handle_variables_request mv L varRef =
          [Item.response (successResponse "variables"
            (ResponseBody.variablesBody (f.locals.take (mv - 1))))])
    ∧ (∀ (mv : Nat) (L : LuaState) (varRef : Int),
        (decodeVarRef varRef).1 = 'l' → lua_getstack L (decodeVarRef varRef).2 = none →
        handle_variables_request mv L varRef =
          [Item.response (errorResponse "variables" "Error retrieving variables")]) := by
  refine ⟨?_, ?_, ?_⟩
  · intro mv L varRef h
    have hne : (decodeVarRef varRef).1 ≠ 'l' := by
      rcases h with h | h <;> rw [h] <;> decide
    unfold handle_variables_request
    rw [if_neg hne]
  · intro mv L varRef f h1 h2
    unfold handle_variables_request
    rw [if_pos h1, h2]
    simp only [localsLoop_one]
  · intro mv L varRef h1 h2
    unfold handle_variables_request
    rw [if_pos h1, h2]

/-- C2 witness: the Locals case applied at the emitted Locals handle
1000000 of frame 0 of `lua0` with `MAX_VARIABLES = 4` (so three of the five
locals are collected). -/
theorem c2_variables_contract_witness :
    (decodeVarRef 1000000).1 = 'l' ∧
    lua_getstack lua0 (decodeVarRef 1000000).2 = some frame0 ∧
    handle_variables_request 4 lua0 1000000 =
      [Item.response (successResponse "variables"
        (ResponseBody.variablesBody (frame0.locals.take (4 - 1))))] :=
  ⟨by decide, by decide, c2_variables_contract.2.1 4 lua0 1000000 frame0 (by decide) (by decide)⟩

/-- C3 counterexample: the claim says a handle outside the emitted set
(here 0) maps to an error response reporting an unknown variablesReference;
the code's error response carries the message
`"Error retrieving variables"`, not `"unknown variablesReference"`. -/
theorem c3_counterexample :
    handle_variables_request 100 lua0 0 =
      [Item.response { command := "variables", success := false,
                       message := some "Error retrieving variables", body := ResponseBody.empty }]
    ∧ (some "Error retrieving variables" : Option String) ≠ some "unknown variablesReference" :=
  ⟨rfl, by decide⟩

/-- C3 (amended): the decode cascade maps every handle the adapter emitted
for an existing frame back to its (kind, depth); any handle that does not
decode to a Locals handle of an existing frame — in particular 0, negative
values, and values below 1000000 — yields an error response, whose message
is `"Error retrieving variables"` rather than one naming an unknown
variablesReference. -/
theorem c3_decode_errors :
    (∀ (L : LuaState) (frameId : Int) (f : LuaFrame),
       lua_getstack L frameId = some f → frameId < 1000000 →
         decodeVarRef (encodeHandle ScopeKind.locals frameId) = ('l', frameId)
       ∧ decodeVarRef (encodeHandle ScopeKind.upvalues frameId) = ('u', frameId)
       ∧ decodeVarRef (encodeHandle ScopeKind.globals frameId) = ('g', frameId))
    ∧ (∀ (mv : Nat) (L : LuaState) (varRef : Int),
        (decodeVarRef varRef).1 ≠ 'l' ∨ lua_getstack L (decodeVarRef varRef).2 = none →
        handle_variables_request mv L varRef =
          [Item.response (errorResponse "variables" "Error retrieving variables")]) := by
  constructor
  · intro L frameId f h hlt
    have h0 : 0 ≤ frameId := lua_getstack_nonneg h
    refine ⟨?_, ?_, ?_⟩
    · simp only [encodeHandle, kindBase, decodeVarRef]
      rw [if_neg (by omega), if_neg (by omega)]
      simp only [Prod.mk.injEq]
      exact ⟨trivial, by omega⟩
    · simp only [encodeHandle, kindBase, decodeVarRef]
      rw [if_neg (by omega), if_pos (by omega)]
      simp only [Prod.mk.injEq]
      exact ⟨trivial, by omega⟩
    · simp only [encodeHandle, kindBase, decodeVarRef]
      rw [if_pos (by omega)]
      simp only [Prod.mk.injEq]
      exact ⟨trivial, by omega⟩
  · intro mv L varRef h
    rcases h with h | h
    · unfold handle_variables_request
      rw [if_neg h]
    · by_cases hl : (decodeVarRef varRef).1 = 'l'
      · unfold handle_variables_request
        rw [if_pos hl, h]
      · unfold handle_variables_request
        rw [if_neg hl]

/-- C3 witness: the error case applied at the concrete handle 0, which
decodes to a Locals handle of depth −1000000, absent on `lua0`. -/
theorem c3_decode_errors_witness :
    ((decodeVarRef 0).1 ≠ 'l' ∨ lua_getstack lua0 (decodeVarRef 0).2 = none) ∧
    handle_variables_request 100 lua0 0 =
      [Item.response (errorResponse "variables" "Error retrieving variables")] :=
  ⟨by decide, c3_decode_errors.2 100 lua0 0 (by decide)⟩

/-- C4: the handle round-trip — decoding `kind_base + depth` returns
exactly the kind character and the depth, for every scope kind and every
depth below 10⁶. -/
theorem c4_handle_roundtrip (k : ScopeKind) (d : Nat) (hd : d < 1000000) :
    decodeVarRef (encodeHandle k (d : Int)) = (kindChar k, (d : Int)) := by
  have hd' : (d : Int) < 1000000 := by exact_mod_cast hd
  have h0 : (0 : Int) ≤ (d : Int) := Int.ofNat_nonneg d
  cases k
  · simp only [encodeHandle, kindBase, kindChar, decodeVarRef]
    rw [if_neg (by omega), if_neg (by omega)]
    simp only [Prod.mk.injEq]
    exact ⟨trivial, by omega⟩
  · simp only [encodeHandle, kindBase, kindChar, decodeVarRef]
    rw [if_neg (by omega), if_pos (by omega)]
    simp only [Prod.mk.injEq]
    exact ⟨trivial, by omega⟩
  · simp only [encodeHandle, kindBase, kindChar, decodeVarRef]
    rw [if_pos (by omega)]
    simp only [Prod.mk.injEq]
    exact ⟨trivial, by omega⟩

/-- C4 witness: the round-trip evaluated at kind Upvalues, depth 7. -/
theorem c4_handle_roundtrip_witness :
    7 < 1000000 ∧
    decodeVarRef (encodeHandle ScopeKind.upvalues ((7 : Nat) : Int)) =
      (kindChar ScopeKind.upvalues, ((7 : Nat) : Int)) :=
  ⟨by decide, c4_handle_roundtrip ScopeKind.upvalues 7 (by decide)⟩

/-- C5: the launch handler in state `DEBUGGER_INITIALIZED` — on load
failure it emits the diagnostic output event then the `"Launch failed"`
error response, leaving the state unchanged; on load success it emits the
success response, runs the program while the state is
`DEBUGGER_PROGRAM_RUNNING` (the `runMarker`), emits the pcall diagnostics if
the run failed, then the terminated event, ending in
`DEBUGGER_PROGRAM_TERMINATED`. -/
theorem c5_launch_contract :
    (∀ (env : Env) (p e : String), env.loadResult p = some e →
       handle_launch_request env DEBUGGER_INIT_DONE p =
         (DEBUGGER_INIT_DONE,
          [Item.event (Event.output ("Failed to launch " ++ p ++ " due to error: " ++ e)),
           Item.response (errorResponse "launch" "Launch failed")]))
    ∧ (∀ (env : Env) (p : String), env.loadResult p = none → env.runResult = none →
        handle_launch_request env DEBUGGER_INIT_DONE p =
          (DEBUGGER_PROGRAM_TERMINATED,
           [Item.response (successResponse "launch" ResponseBody.empty),
            Item.runMarker DEBUGGER_PROGRAM_RUNNING,
            Item.event Event.terminated]))
    ∧ (∀ (env : Env) (p e : String), env.loadResult p = none → env.runResult = some e →
        handle_launch_request env DEBUGGER_INIT_DONE p =
          (DEBUGGER_PROGRAM_TERMINATED,
           [Item.response (successResponse "launch" ResponseBody.empty),
            Item.runMarker DEBUGGER_PROGRAM_RUNNING,
            Item.event (Event.output "Program terminated with error"),
            Item.event (Event.output e),
            Item.event Event.terminated])) := by
  refine ⟨?_, ?_, ?_⟩
  · intro env p e hload
    unfold handle_launch_request
    rw [if_neg (by simp), hload]
  · intro env p hload hrun
    unfold handle_launch_request
    rw [if_neg (by simp), hload, hrun]
    rfl
  · intro env p e hload hrun
    unfold handle_launch_request
    rw [if_neg (by simp), hload, hrun]
    rfl

/-- C5 witness: the failure branch on the concrete environment `env0`,
whose load of `"nope.lua"` fails. -/
theorem c5_launch_contract_witness :
    env0.loadResult "nope.lua" = some "cannot open nope.lua" ∧
    handle_launch_request env0 DEBUGGER_INIT_DONE "nope.lua" =
      (DEBUGGER_INIT_DONE,
       [Item.event (Event.output
          ("Failed to launch " ++ "nope.lua" ++ " due to error: " ++ "cannot open nope.lua")),
        Item.response (errorResponse "launch" "Launch failed")]) :=
  ⟨rfl, c5_launch_contract.1 env0 "nope.lua" "cannot open nope.lua" rfl⟩

/-- C6: within a session of hook-driven `debugger` entries starting in
`DEBUGGER_PROGRAM_RUNNING` with `thread_event_sent` clear, the trace starts
with exactly the thread-started event immediately followed by the stopped
event with reason `"entry"` (both emitted before any request of that stop is
read); everything after those two contains no further thread event and every
further stopped event carries reason `"step"`; and no request handler ever
emits a thread or stopped event. -/
theorem c6_first_stop (env : Env) (n : Nat) (input : List Command) :
    (hookSession env (n + 1) DEBUGGER_PROGRAM_RUNNING false input).take 2
      = [Item.event (Event.threadEvent true), Item.event (Event.stoppedEvent "entry")]
    ∧ (∀ it ∈ (hookSession env (n + 1) DEBUGGER_PROGRAM_RUNNING false input).drop 2,
        isStopOrThreadEv it = true → it = Item.event (Event.stoppedEvent "step"))
    ∧ (∀ (st : Nat) (cmd : Command), ∀ it ∈ (dispatchCommand env st cmd).items,
        isStopOrThreadEv it = false) := by
  have hpre : debuggerPrelude DEBUGGER_PROGRAM_RUNNING false =
      { state := DEBUGGER_PROGRAM_STOPPED, threadEventSent := true,
        events := [Item.event (Event.threadEvent true),
                   Item.event (Event.stoppedEvent "entry")] } := by
    rw [debuggerPrelude, if_pos rfl]
    rfl
  have hstep : debuggerStep env DEBUGGER_PROGRAM_RUNNING false input =
      { state := if (loopRun env DEBUGGER_PROGRAM_STOPPED input).exited
                   then (loopRun env DEBUGGER_PROGRAM_STOPPED input).state
                   else DEBUGGER_PROGRAM_RUNNING
        threadEventSent := true
        items := [Item.event (Event.threadEvent true), Item.event (Event.stoppedEvent "entry")]
                 ++ (loopRun env DEBUGGER_PROGRAM_STOPPED input).items
        rest := (loopRun env DEBUGGER_PROGRAM_STOPPED input).rest
        exited := (loopRun env DEBUGGER_PROGRAM_STOPPED input).exited } := by
    rw [debuggerStep, if_neg (by decide), hpre]
  have hdec : hookSession env (n + 1) DEBUGGER_PROGRAM_RUNNING false input
      = [Item.event (Event.threadEvent true), Item.event (Event.stoppedEvent "entry")]
        ++ ((loopRun env DEBUGGER_PROGRAM_STOPPED input).items
            ++ (if (debuggerStep env DEBUGGER_PROGRAM_RUNNING false input).exited then []
                else hookSession env n
                       (debuggerStep env DEBUGGER_PROGRAM_RUNNING false input).state
                       (debuggerStep env DEBUGGER_PROGRAM_RUNNING false input).threadEventSent
                       (debuggerStep env DEBUGGER_PROGRAM_RUNNING false input).rest)) := by
    conv_lhs => rw [hookSession]
    rw [hstep]
    simp [List.append_assoc]
  refine ⟨?_, ?_, fun st cmd => dispatch_no_stop_items env st cmd⟩
  · rw [hdec]
    rfl
  · intro it h htrue
    rw [hdec] at h
    have h' : it ∈ (loopRun env DEBUGGER_PROGRAM_STOPPED input).items
        ++ (if (debuggerStep env DEBUGGER_PROGRAM_RUNNING false input).exited then []
            else hookSession env n
                   (debuggerStep env DEBUGGER_PROGRAM_RUNNING false input).state
                   (debuggerStep env DEBUGGER_PROGRAM_RUNNING false input).threadEventSent
                   (debuggerStep env DEBUGGER_PROGRAM_RUNNING false input).rest) := h
    rcases List.mem_append.mp h' with h1 | h2
    · have hfalse := loopRun_no_stop_items env input DEBUGGER_PROGRAM_STOPPED it h1
      rw [htrue] at hfalse
      exact Bool.noConfusion hfalse
    · by_cases hex : (debuggerStep env DEBUGGER_PROGRAM_RUNNING false input).exited
      · rw [if_pos hex] at h2
        simp at h2
      · rw [if_neg hex] at h2
        rw [hstep] at h2
        exact hookSession_step_only env n _ _ it h2 htrue

/-- C6 witness: the first-stop trace evaluated for a single hook entry with
no pending requests. -/
theorem c6_first_stop_witness :
    (hookSession env0 1 DEBUGGER_PROGRAM_RUNNING false []).take 2
      = [Item.event (Event.threadEvent true), Item.event (Event.stoppedEvent "entry")] :=
  (c6_first_stop env0 0 []).1

/-- C7: the stackTrace contract — for non-negative `levels` the number of
emitted frames is at most the minimum of `levels`, `MAX_STACK_FRAMES` and
the actual stack depth; each emitted frame carries `id` equal to its depth
and name `"?"` when the function is anonymous; and the response carries
`totalFrames` equal to the number of frames emitted. -/
theorem c7_stacktrace_cap (maxSF : Nat) (L : LuaState) (levels : Int) (hl : 0 ≤ levels) :
    ((stackWalk maxSF levels 0 L.stack).length : Int)
        ≤ min (min levels (maxSF : Int)) (L.stack.length : Int)
    ∧ (∀ (i : Nat) (fr : StackFrame), (stackWalk maxSF levels 0 L.stack)[i]? = some fr →
         fr.id = i ∧ ∀ f : LuaFrame, L.stack[i]? = some f → f.name = none → fr.name = "?")
    ∧ handle_stack_trace_request maxSF L levels =
        [Item.response (successResponse "stackTrace"
          (ResponseBody.stackTraceBody (stackWalk maxSF levels 0 L.stack)
            (stackWalk maxSF levels 0 L.stack).length))] := by
  refine ⟨?_, ?_, rfl⟩
  · obtain ⟨h1, h2, h3⟩ := stackWalk_length_le maxSF levels hl L.stack 0
    simp only [Nat.sub_zero] at h2 h3
    omega
  · intro i fr h
    obtain ⟨f, hf, hfr⟩ := stackWalk_get maxSF levels L.stack 0 i fr h
    constructor
    · rw [hfr]
      simp [mkStackFrame]
    · intro f' hf' hanon
      rw [hf] at hf'
      cases hf'
      rw [hfr]
      simp [mkStackFrame, hanon]

/-- C7 witness: the frame-count cap evaluated on the concrete one-frame
stack `lua0` with `levels = 20` and `MAX_STACK_FRAMES = 20`. -/
theorem c7_stacktrace_cap_witness :
    (0 : Int) ≤ 20 ∧
    ((stackWalk 20 20 0 lua0.stack).length : Int)
        ≤ min (min (20 : Int) ((20 : Nat) : Int)) ((lua0.stack.length : Nat) : Int) :=
  ⟨by decide, (c7_stacktrace_cap 20 lua0 20 (by decide)).1⟩

/-- C8: the scopes contract — for an existing frame the response carries a
Locals scope (always, `expensive = false`), an `"Up Values"` scope exactly
when the frame reports `nups > 0` (`expensive = false`), and a Globals scope
(always, `expensive = true`), each with `variablesReference` equal to the
encoded handle for its kind and the frame id; for an absent frame the
handler emits an error response. -/
theorem c8_scopes_contract :
    (∀ (L : LuaState) (frameId : Int) (f : LuaFrame), lua_getstack L frameId = some f →
       handle_scopes_request L frameId =
         [Item.response (successResponse "scopes" (ResponseBody.scopesBody
           ([{ name := "Locals", variablesReference := encodeHandle ScopeKind.locals frameId,
               expensive := false }]
            ++ (if f.nups > 0 then
                 [{ name := "Up Values",
                    variablesReference := encodeHandle ScopeKind.upvalues frameId,
                    expensive := false }]
                else [])
            ++ [{ name := "Globals",
                  variablesReference := encodeHandle ScopeKind.globals frameId,
                  expensive := true }])))])
    ∧ (∀ (L : LuaState) (frameId : Int), lua_getstack L frameId = none →
        handle_scopes_request L frameId =
          [Item.response (errorResponse "scopes" "Error retrieving stack frame")]) := by
  constructor
  · intro L frameId f h
    unfold handle_scopes_request
    rw [h]
    simp only [encodeHandle, kindBase]
  · intro L frameId h
    unfold handle_scopes_request
    rw [h]

/-- C8 witness: the existing-frame case evaluated at frame 0 of `lua0`
(which reports one upvalue, so the `"Up Values"` scope is present). -/
theorem c8_scopes_contract_witness :
    lua_getstack lua0 0 = some frame0 ∧
    handle_scopes_request lua0 0 =
      [Item.response (successResponse "scopes" (ResponseBody.scopesBody
        ([{ name := "Locals", variablesReference := encodeHandle ScopeKind.locals 0,
            expensive := false }]
         ++ (if frame0.nups > 0 then
              [{ name := "Up Values", variablesReference := encodeHandle ScopeKind.upvalues 0,
                 expensive := false }]
             else [])
         ++ [{ name := "Globals", variablesReference := encodeHandle ScopeKind.globals 0,
               expensive := true }])))] :=
  ⟨by decide, c8_scopes_contract.1 lua0 0 frame0 (by decide)⟩

/-- C9: the initialize contract — in `DEBUGGER_BIRTH` the handler emits, in
order, the initialized event, the success response advertising
`supportsConfigurationDoneRequest = true`, and the output event
`"Debugger initialized"`, transitioning to `DEBUGGER_INITIALIZED`; in any
later state it emits an error response and leaves the state unchanged. -/
theorem c9_init_contract :
    (∀ env : Env, dispatchCommand env DEBUGGER_BIRTH Command.initCmd =
       { state := DEBUGGER_INIT_DONE,
         items := [Item.event Event.initEv,
                   Item.response { command := "initialize", success := true, message := none,
                                   body := ResponseBody.initBody true },
                   Item.event (Event.output "Debugger initialized")],
         ctl := LoopCtl.cont })
    ∧ (∀ (env : Env) (st : Nat), DEBUGGER_INIT_DONE ≤ st →
        dispatchCommand env st Command.initCmd =
          { state := st,
            items := [Item.response (errorResponse "initialize" "already initialized")],
            ctl := LoopCtl.cont }) := by
  constructor
  · intro env
    rfl
  · intro env st h
    simp only [dispatchCommand, handle_init_request, if_pos h]

/-- C9 witness: re-initialisation rejected in the concrete state
`DEBUGGER_PROGRAM_STOPPED`. -/
theorem c9_init_contract_witness :
    DEBUGGER_INIT_DONE ≤ DEBUGGER_PROGRAM_STOPPED ∧
    dispatchCommand env0 DEBUGGER_PROGRAM_STOPPED Command.initCmd =
      { state := DEBUGGER_PROGRAM_STOPPED,
        items := [Item.response (errorResponse "initialize" "already initialized")],
        ctl := LoopCtl.cont } :=
  ⟨by decide, c9_init_contract.2 env0 DEBUGGER_PROGRAM_STOPPED (by decide)⟩

/-- C10: the hook is installed with a mask covering call, line and return
events, yet only a line event enters the dispatch loop: on a call, return,
tail-call or count event `ravi_debughook` emits nothing, reads no request
and leaves the session state (and the first-stop flag) unchanged. -/
theorem c10_hook_line_only (env : Env) (st : Nat) (tes : Bool) (input : List Command) :
    ravi_debughook env HookEvent.call st tes input =
        { state := st, threadEventSent := tes, items := [], rest := input, exited := false }
    ∧ ravi_debughook env HookEvent.ret st tes input =
        { state := st, threadEventSent := tes, items := [], rest := input, exited := false }
    ∧ ravi_debughook env HookEvent.tailcall st tes input =
        { state := st, threadEventSent := tes, items := [], rest := input, exited := false }
    ∧ ravi_debughook env HookEvent.count st tes input =
        { state := st, threadEventSent := tes, items := [], rest := input, exited := false }
    ∧ ravi_debughook env HookEvent.line st tes input = debuggerStep env st tes input
    ∧ HookEvent.call ∈ installedHookMask
    ∧ HookEvent.line ∈ installedHookMask
    ∧ HookEvent.ret ∈ installedHookMask := by
  refine ⟨rfl, rfl, rfl, rfl, ?_, ?_, ?_, ?_⟩
  · rw [ravi_debughook, if_pos rfl]
  · simp [installedHookMask]
  · simp [installedHookMask]
  · simp [installedHookMask]

end RaviDebug
